import Mathlib

/-!
Shallow embedding of `litellm/integrations/pagerduty/pagerduty.py`:
a sliding-window failure-rate alerting engine.  Timestamps are modelled
as integers (seconds); `datetime.now(timezone.utc)` becomes an explicit
`now : Int` input, and `timedelta(seconds=w)` becomes integer subtraction.
The HTTP transport (`AsyncHTTPHandler.post`) is outside the embedded
sources; per the specification the dispatcher returns the success/failure
of the send, so the transport outcome is an explicit boolean input that
the engine records but whose value never influences the store.
-/

namespace LiteLLM.PagerDuty

/-- Error-classification slice of the standard logging payload
(`StandardLoggingPayloadErrorInformation`): three optional strings. -/
structure StandardLoggingPayloadErrorInformation where
  error_class : Option String
  error_code : Option String
  llm_provider : Option String
  deriving Repr, DecidableEq

/-- The `metadata` slice of the standard logging payload: the seven optional
correlation identifiers read by the failure hook. -/
structure StandardLoggingMetadata where
  user_api_key_hash : Option String
  user_api_key_alias : Option String
  user_api_key_org_id : Option String
  user_api_key_team_id : Option String
  user_api_key_user_id : Option String
  user_api_key_team_alias : Option String
  user_api_key_end_user_id : Option String
  deriving Repr, DecidableEq

/-- The parts of `StandardLoggingPayload` consulted by the failure hook.
Both sub-dictionaries may be absent (`payload.get(...) or {}` in the
source). -/
structure StandardLoggingPayload where
  metadata : Option StandardLoggingMetadata
  error_information : Option StandardLoggingPayloadErrorInformation
  deriving Repr, DecidableEq

/-- A metadata dictionary with every key absent: the `or {}` fallback. -/
def emptyMetadata : StandardLoggingMetadata :=
  ⟨none, none, none, none, none, none, none⟩

/-- An error-information dictionary with every key absent: the `or {}`
fallback. -/
def emptyErrorInformation : StandardLoggingPayloadErrorInformation :=
  ⟨none, none, none⟩

/-- One recorded failure (`FailureEvent`).  The timestamp is always set by
the engine at record time (source line 62); the classification and
identity fields are optional. -/
structure FailureEvent where
  timestamp : Int
  error_class : Option String
  error_code : Option String
  error_llm_provider : Option String
  user_api_key_hash : Option String
  user_api_key_alias : Option String
  user_api_key_org_id : Option String
  user_api_key_team_id : Option String
  user_api_key_user_id : Option String
  user_api_key_team_alias : Option String
  user_api_key_end_user_id : Option String
  deriving Repr, DecidableEq

/-- `AlertingConfig`: both keys may be absent; the engine reads them with
`.get(key, default)` (defaults 60 and 1, source lines 79-82). -/
structure AlertingConfig where
  failure_threshold_window_seconds : Option Int
  failure_threshold : Option Int
  deriving Repr, DecidableEq

/-- Engine state (`PagerDutyAlerting`): the routing secret, the
construction-time configuration and the mutable event store. -/
structure PagerDutyAlerting where
  api_key : String
  alerting_config : AlertingConfig
  failure_events : List FailureEvent
  deriving Repr, DecidableEq

/-- Python truthiness of `os.getenv` results: `not _api_key` holds when the
variable is unset or the empty string. -/
def pyFalsyStr : Option String → Bool
  | none => true
  | some s => s = ""

/-- `PagerDutyAlerting.__init__` (source lines 27-37): reads
`PAGERDUTY_API_KEY` from the environment, rejects a falsy value with
`ValueError("PAGERDUTY_API_KEY is not set")`, stores the configuration and
starts with an empty event store. -/
def PagerDutyAlerting.init (env_PAGERDUTY_API_KEY : Option String)
    (alerting_config : AlertingConfig) : Except String PagerDutyAlerting :=
  if pyFalsyStr env_PAGERDUTY_API_KEY then
    .error "PAGERDUTY_API_KEY is not set"
  else
    .ok { api_key := env_PAGERDUTY_API_KEY.getD ""
          alerting_config := alerting_config
          failure_events := [] }

/-- `_prune_failure_events` (source lines 161-168): rebuild the store
keeping, in order, exactly the events whose timestamp is strictly greater
than the cutoff.  (The source's `if _timestamp and ...` truthiness guard is
vacuous here because `timestamp` is always set, and a `datetime` is always
truthy in Python.) -/
def _prune_failure_events : List FailureEvent → Int → List FailureEvent
  | [], _ => []
  | fe :: rest, cutoff =>
    if fe.timestamp > cutoff then fe :: _prune_failure_events rest cutoff
    else _prune_failure_events rest cutoff

/-- Python slice `l[-k:]` for an arbitrary integer `k`.  For `k ≤ 0` the
start index `-k` is non-negative, so this is `l[(-k):]`, i.e. drop the
first `-k` elements (in particular `l[-0:] = l`).  For `k ≥ 1` the start
index is negative and clamps at the front, giving the last
`min k (length l)` elements. -/
def pySliceLast (l : List α) (k : Int) : List α :=
  if k ≤ 0 then l.drop (-k).toNat
  else l.drop (l.length - k.toNat)

/-- Python `x or "N/A"` on an optional string: `None` and `""` are falsy
and replaced by the placeholder. -/
def orNA : Option String → String
  | none => "N/A"
  | some s => if s = "" then "N/A" else s

/-- One summary line (source lines 180-186):
`f"{error_class} (code: {error_code}, provider: {error_llm_provider})"`
after `or "N/A"` substitution. -/
def summarize_event (fe : FailureEvent) : String :=
  orNA fe.error_class ++ " (code: " ++ orNA fe.error_code ++
    ", provider: " ++ orNA fe.error_llm_provider ++ ")"

/-- `_build_error_summaries` (source lines 170-187): slice the last
`max_errors` events (`self._failure_events[-max_errors:]`) and render one
line per sliced event, in store order.  The store itself is only read. -/
def _build_error_summaries (events : List FailureEvent) (max_errors : Int) :
    List String :=
  (pySliceLast events max_errors).map summarize_event

/-- The `custom_details` dictionary passed to the dispatcher: the rendered
summary lines under the single key `"recent_errors"` (source line 96). -/
structure CustomDetails where
  recent_errors : List String
  deriving Repr, DecidableEq

/-- Alert payload body (`PagerDutyPayload`, filled at source lines
142-148). -/
structure PagerDutyPayload where
  summary : String
  severity : String
  source : String
  component : String
  custom_details : CustomDetails
  deriving Repr, DecidableEq

/-- `PagerDutyRequestBody` (source lines 141-151): payload plus routing key
and event action. -/
structure PagerDutyRequestBody where
  payload : PagerDutyPayload
  routing_key : String
  event_action : String
  deriving Repr, DecidableEq

/-- The outbound HTTP POST issued by the dispatcher (source lines 153-157):
fixed URL, the request body serialized as JSON, and the content-type
header. -/
structure PostRequest where
  url : String
  json_body : PagerDutyRequestBody
  content_type_header : String
  deriving Repr, DecidableEq

/-- `send_alert_to_pagerduty` (source lines 130-157): builds the request
body with fixed severity/source/component/event_action, the
construction-time routing key, and the caller's message and details, and
posts it as JSON to the fixed events endpoint.  The transport call itself
is outside the embedded sources; the function yields the request it
posts. -/
def send_alert_to_pagerduty (api_key : String) (alert_message : String)
    (custom_details : CustomDetails) : PostRequest :=
  { url := "https://events.pagerduty.com/v2/enqueue"
    json_body :=
      { payload :=
          { summary := alert_message
            severity := "critical"
            source := "LiteLLM Alert"
            component := "LiteLLM"
            custom_details := custom_details }
        routing_key := api_key
        event_action := "trigger" }
    content_type_header := "application/json" }

/-- `alerting_config.get("failure_threshold_window_seconds", 60)`
(source lines 79-81). -/
def window_secondsOf (s : PagerDutyAlerting) : Int :=
  s.alerting_config.failure_threshold_window_seconds.getD 60

/-- `alerting_config.get("failure_threshold", 1)` (source line 82). -/
def thresholdOf (s : PagerDutyAlerting) : Int :=
  s.alerting_config.failure_threshold.getD 1

/-- The `FailureEvent` appended by one ingestion (source lines 60-76):
timestamp `now`, classification from `error_information or {}`, identity
fields from `metadata or {}`. -/
def new_failure_event (now : Int) (slp : StandardLoggingPayload) :
    FailureEvent :=
  let md := slp.metadata.getD emptyMetadata
  let error_info := slp.error_information.getD emptyErrorInformation
  { timestamp := now
    error_class := error_info.error_class
    error_code := error_info.error_code
    error_llm_provider := error_info.llm_provider
    user_api_key_hash := md.user_api_key_hash
    user_api_key_alias := md.user_api_key_alias
    user_api_key_org_id := md.user_api_key_org_id
    user_api_key_team_id := md.user_api_key_team_id
    user_api_key_user_id := md.user_api_key_user_id
    user_api_key_team_alias := md.user_api_key_team_alias
    user_api_key_end_user_id := md.user_api_key_end_user_id }

/-- The store contents right after one ingestion's append (line 60) and
prune with cutoff `now - window_seconds` (lines 83-84): the list against
which the threshold is then evaluated. -/
def retained_after (s : PagerDutyAlerting) (now : Int)
    (slp : StandardLoggingPayload) : List FailureEvent :=
  _prune_failure_events (s.failure_events ++ [new_failure_event now slp])
    (now - window_secondsOf s)

/-- Result of one ingestion call: the engine state after the call, and
either the raised error message or the optional dispatch (the posted
request paired with the transport send outcome). -/
structure IngestOutcome where
  state : PagerDutyAlerting
  result : Except String (Option (PostRequest × Bool))
  deriving Repr

/-- The request dispatched by an ingestion, if any. -/
def IngestOutcome.dispatched (o : IngestOutcome) : Option PostRequest :=
  match o.result with
  | .ok (some (req, _)) => some req
  | _ => none

/-- `async_log_failure_event` (source lines 39-104).  Steps, in source
order: raise if `standard_logging_object` is missing (lines 50-53, before
any store mutation); append the new event (60-76); prune with cutoff
`now - window_seconds` (83-84); if the post-prune count reaches the
threshold (87), build the 5-line summary (88), compose the alert message
(89-92), dispatch (98-101) and clear the store (104); otherwise keep the
pruned store.  `transport_send_ok` is the outcome of the external POST;
modelled from the spec: the dispatcher reports send success/failure to its
caller (the recorded boolean) and the clear on line 104 happens in the
same step regardless. -/
def async_log_failure_event (s : PagerDutyAlerting) (now : Int)
    (standard_logging_object : Option StandardLoggingPayload)
    (transport_send_ok : Bool) : IngestOutcome :=
  match standard_logging_object with
  | none =>
    { state := s
      result := .error "standard_logging_object is required for PagerDutyAlerting" }
  | some slp =>
    let window_seconds := window_secondsOf s
    let threshold := thresholdOf s
    let pruned := retained_after s now slp
    if (pruned.length : Int) ≥ threshold then
      let error_summaries := _build_error_summaries pruned 5
      let alert_message :=
        "High LLM API Failure Rate: " ++ toString pruned.length ++
          " failures in the last " ++ toString window_seconds ++ " seconds."
      let req := send_alert_to_pagerduty s.api_key alert_message
        ⟨error_summaries⟩
      { state := { s with failure_events := [] }
        result := .ok (some (req, transport_send_ok)) }
    else
      { state := { s with failure_events := pruned }
        result := .ok none }

/-- One step of an ingestion trace: the pre-call engine state, the call's
inputs, and its outcome. -/
structure TraceStep where
  pre : PagerDutyAlerting
  now : Int
  slp : StandardLoggingPayload
  send_ok : Bool
  outcome : IngestOutcome
  deriving Repr

/-- Run a sequence of ingestions (each with a present logging payload),
threading the engine state, and record every step. -/
def run_ingestions (s : PagerDutyAlerting) :
    List (Int × StandardLoggingPayload × Bool) → List TraceStep
  | [] => []
  | (now, slp, ok) :: rest =>
    let o := async_log_failure_event s now (some slp) ok
    ⟨s, now, slp, ok, o⟩ :: run_ingestions o.state rest


/-! Shared lemmas about the embedded operations. -/

/-- The prune loop is a filter on `timestamp > cutoff`. -/
theorem prune_eq_filter (l : List FailureEvent) (cutoff : Int) :
    _prune_failure_events l cutoff =
      l.filter (fun fe => decide (cutoff < fe.timestamp)) := by
  induction l with
  | nil => rfl
  | cons fe rest ih =>
    by_cases h : cutoff < fe.timestamp
    · simp [_prune_failure_events, h, ih]
    · simp [_prune_failure_events, h, ih]

/-- Membership in the pruned store. -/
theorem mem_prune_iff (l : List FailureEvent) (cutoff : Int)
    (fe : FailureEvent) :
    fe ∈ _prune_failure_events l cutoff ↔ fe ∈ l ∧ cutoff < fe.timestamp := by
  rw [prune_eq_filter]
  simp [List.mem_filter]

/-- The ingestion hook with a present payload never raises and its dispatch
is set exactly when the post-prune count reaches the threshold. -/
theorem dispatched_isSome_iff (s : PagerDutyAlerting) (now : Int)
    (slp : StandardLoggingPayload) (ok : Bool) :
    ((async_log_failure_event s now (some slp) ok).dispatched.isSome = true) ↔
      thresholdOf s ≤ ((retained_after s now slp).length : Int) := by
  by_cases h : thresholdOf s ≤ ((retained_after s now slp).length : Int)
  · simp [async_log_failure_event, IngestOutcome.dispatched, h]
  · simp [async_log_failure_event, IngestOutcome.dispatched, h]

/-- When the threshold is not reached, no request is dispatched. -/
theorem dispatched_eq_none_of_below (s : PagerDutyAlerting) (now : Int)
    (slp : StandardLoggingPayload) (ok : Bool)
    (h : ((retained_after s now slp).length : Int) < thresholdOf s) :
    (async_log_failure_event s now (some slp) ok).dispatched = none := by
  have h2 : ¬ thresholdOf s ≤ ((retained_after s now slp).length : Int) := by
    omega
  simp [async_log_failure_event, IngestOutcome.dispatched, h2]

/-! Concrete sample inputs used by witnesses and counterexamples. -/

/-- A failure event with every optional field absent, stamped at time 0. -/
def sampleEvent : FailureEvent :=
  ⟨0, none, none, none, none, none, none, none, none, none, none⟩

/-- Window 60, threshold 1. -/
def sampleConfig : AlertingConfig := ⟨some 60, some 1⟩

/-- A freshly constructed engine with threshold 1. -/
def sampleEngine : PagerDutyAlerting := ⟨"routing-key", sampleConfig, []⟩

/-- A logging payload with both sub-dictionaries absent. -/
def samplePayload : StandardLoggingPayload := ⟨none, none⟩

/-- An engine configured with a zero-length window. -/
def zeroWindowEngine : PagerDutyAlerting := ⟨"routing-key", ⟨some 0, some 3⟩, []⟩

/-- C2: `_prune_failure_events cutoff` keeps exactly the events with
timestamp strictly greater than the cutoff (an event at exactly the cutoff
is removed), preserves the relative order of survivors (the result is a
sublist of the input), and after the ingestion-time prune the retained
store is exactly the appended store restricted to
`timestamp > now - window_seconds`. -/
theorem C2_prune_window_correct :
    (∀ (l : List FailureEvent) (cutoff : Int) (fe : FailureEvent),
        fe ∈ _prune_failure_events l cutoff ↔
          fe ∈ l ∧ cutoff < fe.timestamp)
    ∧ (∀ (l : List FailureEvent) (cutoff : Int),
        List.Sublist (_prune_failure_events l cutoff) l)
    ∧ (∀ (s : PagerDutyAlerting) (now : Int) (slp : StandardLoggingPayload),
        retained_after s now slp =
          (s.failure_events ++ [new_failure_event now slp]).filter
            (fun fe => decide (now - window_secondsOf s < fe.timestamp))) := by
  refine ⟨mem_prune_iff, ?_, ?_⟩
  · intro l cutoff
    rw [prune_eq_filter]
    exact List.filter_sublist l
  · intro s now slp
    exact prune_eq_filter _ _

/-- C9: with `max_errors = 0` the Python slice `[-0:]` selects the whole
list, so the summary builder returns one line for every retained event
rather than an empty sequence. -/
theorem C9_zero_max_errors (events : List FailureEvent) :
    _build_error_summaries events 0 = events.map summarize_event
    ∧ (_build_error_summaries events 0).length = events.length := by
  constructor
  · simp [_build_error_summaries, pySliceLast]
  · simp [_build_error_summaries, pySliceLast]

/-- C4: an ingestion call without a standard logging object raises a
descriptive error, leaves the store (indeed the whole engine state)
unmodified, and performs no dispatch. -/
theorem C4_missing_payload (s : PagerDutyAlerting) (now : Int) (ok : Bool) :
    (async_log_failure_event s now none ok).state = s
    ∧ (async_log_failure_event s now none ok).result =
        .error "standard_logging_object is required for PagerDutyAlerting"
    ∧ (async_log_failure_event s now none ok).dispatched = none :=
  ⟨rfl, rfl, rfl⟩

/-- C7: construction fails (the engine value is never produced) when the
routing secret is absent — and likewise for the degenerate empty-string
value, which Python truthiness treats as unset — and succeeds with an
empty event store for any non-empty secret. -/
theorem C7_construction (cfg : AlertingConfig) :
    PagerDutyAlerting.init none cfg = .error "PAGERDUTY_API_KEY is not set"
    ∧ PagerDutyAlerting.init (some "") cfg =
        .error "PAGERDUTY_API_KEY is not set"
    ∧ ∀ k : String, k ≠ "" →
        PagerDutyAlerting.init (some k) cfg = .ok ⟨k, cfg, []⟩ := by
  refine ⟨rfl, rfl, ?_⟩
  intro k hk
  simp [PagerDutyAlerting.init, pyFalsyStr, hk]

/-- Witness for C7 at a concrete non-empty secret. -/
theorem C7_construction_witness :
    "routing-key" ≠ ""
    ∧ PagerDutyAlerting.init (some "routing-key") sampleConfig =
        .ok ⟨"routing-key", sampleConfig, []⟩ :=
  ⟨by decide, (C7_construction sampleConfig).2.2 "routing-key" (by decide)⟩

/-- C1: the post-prune threshold test is `size >= failure_threshold`
(dispatch set exactly when the threshold is less than or equal to the
retained count, so a threshold of 0 or negative always dispatches, since
the count is non-negative), and over any ingestion sequence in which the
retained count stays strictly below the threshold at every step, no
dispatch ever occurs. -/
theorem C1_threshold_dispatch :
    (∀ (s : PagerDutyAlerting) (now : Int) (slp : StandardLoggingPayload)
        (ok : Bool),
        ((async_log_failure_event s now (some slp) ok).dispatched.isSome
            = true) ↔
          thresholdOf s ≤ ((retained_after s now slp).length : Int))
    ∧ (∀ (s : PagerDutyAlerting) (now : Int) (slp : StandardLoggingPayload)
        (ok : Bool), thresholdOf s ≤ 0 →
        (async_log_failure_event s now (some slp) ok).dispatched.isSome
          = true)
    ∧ (∀ (s : PagerDutyAlerting)
        (inputs : List (Int × StandardLoggingPayload × Bool)),
        (∀ st ∈ run_ingestions s inputs,
            ((retained_after st.pre st.now st.slp).length : Int)
              < thresholdOf st.pre) →
        ∀ st ∈ run_ingestions s inputs, st.outcome.dispatched = none) := by
  refine ⟨dispatched_isSome_iff, ?_, ?_⟩
  · intro s now slp ok h
    rw [dispatched_isSome_iff]
    have : (0 : Int) ≤ ((retained_after s now slp).length : Int) := by
      positivity
    omega
  · intro s inputs
    induction inputs generalizing s with
    | nil => intro _ st hst; simp [run_ingestions] at hst
    | cons hd tl ih =>
      obtain ⟨now, slp, ok⟩ := hd
      intro h st hst
      rw [run_ingestions] at hst
      rcases List.mem_cons.mp hst with h1 | h2
      · subst h1
        have hh := h _ (by rw [run_ingestions]; exact List.mem_cons_self _ _)
        exact dispatched_eq_none_of_below s now slp ok hh
      · refine ih _ ?_ st h2
        intro st' hst'
        refine h st' ?_
        rw [run_ingestions]
        exact List.mem_cons_of_mem _ hst'

/-- Witness for C1: a threshold-0 engine dispatches on its very first
ingestion, and a below-threshold singleton sequence produces no
dispatch. -/
theorem C1_threshold_dispatch_witness :
    (thresholdOf ⟨"routing-key", ⟨some 60, some 0⟩, []⟩ ≤ 0
      ∧ (async_log_failure_event ⟨"routing-key", ⟨some 60, some 0⟩, []⟩ 5
          (some ⟨none, none⟩) true).dispatched.isSome = true)
    ∧ ∀ st ∈ run_ingestions ⟨"routing-key", ⟨some 60, some 3⟩, []⟩
        [(0, ⟨none, none⟩, true)], st.outcome.dispatched = none :=
  ⟨⟨by decide,
    C1_threshold_dispatch.2.1 ⟨"routing-key", ⟨some 60, some 0⟩, []⟩ 5
      ⟨none, none⟩ true (by decide)⟩,
   C1_threshold_dispatch.2.2 ⟨"routing-key", ⟨some 60, some 3⟩, []⟩
     [(0, ⟨none, none⟩, true)] (by decide)⟩

/-- C3: whenever the threshold is crossed, the same ingestion dispatches an
alert and leaves the event store empty, and this holds for both values of
the transport outcome (the send succeeding or failing does not change the
resulting state). -/
theorem C3_clear_after_dispatch (s : PagerDutyAlerting) (now : Int)
    (slp : StandardLoggingPayload) (ok : Bool)
    (h : thresholdOf s ≤ ((retained_after s now slp).length : Int)) :
    (async_log_failure_event s now (some slp) ok).state.failure_events = []
    ∧ (async_log_failure_event s now (some slp) ok).dispatched.isSome = true
    ∧ (async_log_failure_event s now (some slp) true).state =
        (async_log_failure_event s now (some slp) false).state := by
  refine ⟨?_, ?_, ?_⟩
  · simp [async_log_failure_event, h]
  · simp [async_log_failure_event, IngestOutcome.dispatched, h]
  · simp [async_log_failure_event, h]

/-- Witness for C3 at a concrete crossing ingestion with a failing
transport send. -/
theorem C3_clear_after_dispatch_witness :
    thresholdOf sampleEngine ≤
      ((retained_after sampleEngine 0 samplePayload).length : Int)
    ∧ (async_log_failure_event sampleEngine 0 (some samplePayload)
        false).state.failure_events = [] :=
  ⟨by decide,
   (C3_clear_after_dispatch sampleEngine 0 samplePayload false (by decide)).1⟩

/-- C10: with a positive window the event appended by an ingestion survives
that ingestion's own prune (its timestamp `now` exceeds the cutoff
`now - window_seconds`), so the threshold is evaluated against a count of
at least 1; with a zero window the appended event's timestamp equals the
cutoff and it is pruned within the same ingestion. -/
theorem C10_new_event_survival (s : PagerDutyAlerting) (now : Int)
    (slp : StandardLoggingPayload) :
    (0 < window_secondsOf s →
      new_failure_event now slp ∈ retained_after s now slp
      ∧ 1 ≤ (retained_after s now slp).length)
    ∧ (window_secondsOf s = 0 →
      new_failure_event now slp ∉ retained_after s now slp) := by
  constructor
  · intro hw
    have hmem : new_failure_event now slp ∈ retained_after s now slp := by
      rw [retained_after, mem_prune_iff]
      constructor
      · simp
      · show now - window_secondsOf s < (new_failure_event now slp).timestamp
        have ht : (new_failure_event now slp).timestamp = now := rfl
        omega
    exact ⟨hmem, List.length_pos.mpr (List.ne_nil_of_mem hmem) |>.nat_succ_le⟩
  · intro hw
    rw [retained_after, mem_prune_iff]
    have ht : (new_failure_event now slp).timestamp = now := rfl
    intro hcon
    omega

/-- Witness for C10: both window cases at concrete engines. -/
theorem C10_new_event_survival_witness :
    (0 < window_secondsOf sampleEngine
      ∧ new_failure_event 0 samplePayload ∈
          retained_after sampleEngine 0 samplePayload)
    ∧ (window_secondsOf zeroWindowEngine = 0
      ∧ new_failure_event 0 samplePayload ∉
          retained_after zeroWindowEngine 0 samplePayload) :=
  ⟨⟨by decide,
    ((C10_new_event_survival sampleEngine 0 samplePayload).1 (by decide)).1⟩,
   ⟨by decide,
    (C10_new_event_survival zeroWindowEngine 0 samplePayload).2 (by decide)⟩⟩

/-- C5 counterexample: with `max_errors = 0` the builder does NOT return at
most `max_errors` lines — on a one-event store it returns one line, because
the Python slice `[-0:]` selects the whole list. -/
theorem C5_counterexample_max_errors_zero :
    (_build_error_summaries [sampleEvent] 0).length = 1
    ∧ ¬ (((_build_error_summaries [sampleEvent] 0).length : Int) ≤ 0) := by
  constructor
  · rfl
  · decide

/-- C5 (amended to `max_errors ≥ 1`): the builder returns at most
`max_errors` lines, and those lines are exactly one rendered line per event
of a suffix of the store (the chronologically most recent events, in store
order) of length `min max_errors (store size)`.  The builder is a pure
function of the store contents, so the store is not mutated. -/
theorem C5_summary_bounded (events : List FailureEvent) (max_errors : Int)
    (h : 1 ≤ max_errors) :
    ((_build_error_summaries events max_errors).length : Int) ≤ max_errors
    ∧ ∃ dropped kept, events = dropped ++ kept
        ∧ _build_error_summaries events max_errors = kept.map summarize_event
        ∧ kept.length = min max_errors.toNat events.length := by
  have hne : ¬ max_errors ≤ 0 := by omega
  have hbuild : _build_error_summaries events max_errors =
      (events.drop (events.length - max_errors.toNat)).map summarize_event := by
    simp [_build_error_summaries, pySliceLast, hne]
  refine ⟨?_, events.take (events.length - max_errors.toNat),
    events.drop (events.length - max_errors.toNat),
    (List.take_append_drop _ _).symm, hbuild, ?_⟩
  · rw [hbuild]
    simp only [List.length_map, List.length_drop]
    omega
  · rw [List.length_drop]
    omega

/-- Witness for C5 at `max_errors = 2` over a three-event store. -/
theorem C5_summary_bounded_witness :
    (1 : Int) ≤ 2
    ∧ (((_build_error_summaries [sampleEvent, sampleEvent, sampleEvent] 2).length : Int) ≤ 2
    ∧ ∃ dropped kept, [sampleEvent, sampleEvent, sampleEvent] = dropped ++ kept
        ∧ _build_error_summaries [sampleEvent, sampleEvent, sampleEvent] 2 =
            kept.map summarize_event
        ∧ kept.length = min (2 : Int).toNat
            ([sampleEvent, sampleEvent, sampleEvent] : List FailureEvent).length) :=
  ⟨by decide, C5_summary_bounded [sampleEvent, sampleEvent, sampleEvent] 2 (by decide)⟩

/-- C6: every summary line has the shape
`class (code: code, provider: provider)` where each of the three rendered
components is non-empty, equals the literal `"N/A"` when the corresponding
field is absent, and equals the field's value when it is present and
non-empty; an event with all three classification fields absent renders
exactly as `"N/A (code: N/A, provider: N/A)"`. -/
theorem C6_placeholder_substitution :
    (∀ fe : FailureEvent, ∃ c k p : String,
        summarize_event fe =
          c ++ " (code: " ++ k ++ ", provider: " ++ p ++ ")"
        ∧ c ≠ "" ∧ k ≠ "" ∧ p ≠ ""
        ∧ (fe.error_class = none → c = "N/A")
        ∧ (fe.error_code = none → k = "N/A")
        ∧ (fe.error_llm_provider = none → p = "N/A")
        ∧ (∀ v : String, v ≠ "" → fe.error_class = some v → c = v)
        ∧ (∀ v : String, v ≠ "" → fe.error_code = some v → k = v)
        ∧ (∀ v : String, v ≠ "" → fe.error_llm_provider = some v → p = v))
    ∧ ∀ fe : FailureEvent, fe.error_class = none → fe.error_code = none →
        fe.error_llm_provider = none →
        summarize_event fe = "N/A (code: N/A, provider: N/A)" := by
  have horNA : ∀ o : Option String, orNA o ≠ "" := by
    intro o
    match o with
    | none => decide
    | some s =>
      by_cases hs : s = ""
      · simp [orNA, hs]
      · simp [orNA, hs]
  have hval : ∀ v : String, v ≠ "" → orNA (some v) = v := by
    intro v hv
    simp [orNA, hv]
  constructor
  · intro fe
    refine ⟨orNA fe.error_class, orNA fe.error_code,
      orNA fe.error_llm_provider, rfl, horNA _, horNA _, horNA _,
      ?_, ?_, ?_, ?_, ?_, ?_⟩
    · intro h; rw [h]; rfl
    · intro h; rw [h]; rfl
    · intro h; rw [h]; rfl
    · intro v hv h; rw [h]; exact hval v hv
    · intro v hv h; rw [h]; exact hval v hv
    · intro v hv h; rw [h]; exact hval v hv
  · intro fe h1 h2 h3
    simp [summarize_event, h1, h2, h3, orNA]

/-- Witness for C6 at the all-absent sample event. -/
theorem C6_placeholder_substitution_witness :
    summarize_event sampleEvent = "N/A (code: N/A, provider: N/A)" :=
  C6_placeholder_substitution.2 sampleEvent rfl rfl rfl

/-- C8: whenever an ingestion dispatches, the posted request is exactly the
fixed events-API endpoint with content type `application/json` and a body
whose payload holds the alert message as summary, severity `"critical"`,
source `"LiteLLM Alert"`, component `"LiteLLM"` and the rendered summary
lines under `custom_details.recent_errors`, together with the
construction-time routing key and `event_action = "trigger"`. -/
theorem C8_request_shape (s : PagerDutyAlerting) (now : Int)
    (slp : StandardLoggingPayload) (ok : Bool)
    (h : thresholdOf s ≤ ((retained_after s now slp).length : Int)) :
    (async_log_failure_event s now (some slp) ok).dispatched = some
      { url := "https://events.pagerduty.com/v2/enqueue"
        json_body :=
          { payload :=
              { summary := "High LLM API Failure Rate: " ++
                  toString (retained_after s now slp).length ++
                  " failures in the last " ++
                  toString (window_secondsOf s) ++ " seconds."
                severity := "critical"
                source := "LiteLLM Alert"
                component := "LiteLLM"
                custom_details :=
                  ⟨_build_error_summaries (retained_after s now slp) 5⟩ }
            routing_key := s.api_key
            event_action := "trigger" }
        content_type_header := "application/json" } := by
  simp [async_log_failure_event, IngestOutcome.dispatched, h,
    send_alert_to_pagerduty]

/-- Witness for C8: the concrete request posted by a threshold-1 engine on
its first failure. -/
theorem C8_request_shape_witness :
    (async_log_failure_event sampleEngine 0 (some samplePayload)
        true).dispatched = some
      ⟨"https://events.pagerduty.com/v2/enqueue",
       ⟨⟨"High LLM API Failure Rate: 1 failures in the last 60 seconds.",
         "critical", "LiteLLM Alert", "LiteLLM",
         ⟨["N/A (code: N/A, provider: N/A)"]⟩⟩,
        "routing-key", "trigger"⟩,
       "application/json"⟩ := by
  have h := C8_request_shape sampleEngine 0 samplePayload true (by decide)
  rw [h]
  rfl

end LiteLLM.PagerDuty
